import Mathlib

/-!
Shallow embedding of the hotel-audit backend's query/endpoint layer
(`python_backend/database_queries.py` and
`python_backend/app/api/endpoints/ai.py`).

Modelling conventions:
* timestamps and dates are integers (days); `datetime.utcnow()` and
  `func.current_date()` become an explicit `now`/`today : Int` parameter;
* SQL tables are Lean lists of rows; `filter(...).first()` is `List.find?`;
* nullable columns are `Option`; SQL three-valued comparisons on NULL are
  embedded as "condition does not hold" (NULL is never matched);
* JSON dict columns are association lists `List (String × String)`;
* Python truthiness of an optional argument (`if x:`) is embedded
  explicitly: `None`, `""`, `{}` (empty assoc list) and `[]` are falsy;
* the external Gemini service is an opaque parameter returning
  `Except PyExn _`, mirroring the awaited call that may raise.
-/

namespace HotelAudit

/-- Row of the `users` table (entity shape from the data model; the ORM
model file is not part of the queried sources, its columns are those the
query layer and spec name). -/
structure User where
  id : Nat
  username : String
  password : String
  role : String
  name : String
  email : String
  created_at : Int
deriving DecidableEq, Repr

/-- Row of the `properties` table. -/
structure Property where
  id : Nat
  name : String
  location : String
  region : String
  image : Option String
  status : String
  last_audit_score : Option Int
  next_audit_date : Option Int
  created_at : Int
deriving DecidableEq, Repr

/-- JSON object columns (findings, action_plan, ai_report, ...) modelled as
association lists. -/
def JsonObj := List (String × String)
deriving DecidableEq, Repr

/-- Row of the `audits` table. -/
structure Audit where
  id : Nat
  property_id : Nat
  auditor_id : Option Nat
  reviewer_id : Option Nat
  status : String
  overall_score : Option Int
  cleanliness_score : Option Int
  branding_score : Option Int
  operational_score : Option Int
  compliance_zone : Option String
  findings : Option JsonObj
  action_plan : Option JsonObj
  ai_report : Option JsonObj
  ai_insights : Option JsonObj
  submitted_at : Option Int
  reviewed_at : Option Int
  created_at : Int
deriving DecidableEq, Repr

/-- Row of the `audit_items` table.  The field `section` of the source is
renamed `item_section` (`section` is a Lean keyword). -/
structure AuditItem where
  id : Nat
  audit_id : Nat
  item_section : String
  category : String
  item_name : String
  item : String
  description : String
  is_compliant : Option Bool
  score : Option Int
  comments : Option String
  notes : Option String
  photo_url : Option String
  ai_analysis : Option JsonObj
  ai_suggested_score : Option Int
  created_at : Int
deriving DecidableEq, Repr

/-- The database state seen by a `DatabaseQueries` session. -/
structure DB where
  users : List User
  properties : List Property
  audits : List Audit
  audit_items : List AuditItem
deriving DecidableEq, Repr

/-- Python truthiness of an optional list argument (`if xs:`). -/
def truthyList {α : Type} : Option (List α) → Bool
  | some (_ :: _) => true
  | _ => false

/-- Python truthiness of an optional string argument (`if s:`). -/
def truthyStr : Option String → Bool
  | some s => !(s == "")
  | none => false

/-- Python truthiness of an optional dict argument (`if d:`). -/
def truthyObj : Option JsonObj → Bool
  | some l => !(List.isEmpty l)
  | none => false

/-- One keyword argument of `update_user(user_id, **kwargs)`: a column of
`users` paired with the value assigned by `setattr`. -/
inductive UserKwarg where
  | username (v : String)
  | password (v : String)
  | role (v : String)
  | name (v : String)
  | email (v : String)
deriving DecidableEq, Repr

/-- `setattr(user, key, value)` for one keyword argument. -/
def setUserAttr (u : User) : UserKwarg → User
  | .username v => { u with username := v }
  | .password v => { u with password := v }
  | .role v => { u with role := v }
  | .name v => { u with name := v }
  | .email v => { u with email := v }

/-- Commit of a mutated row: every row of the table with the same id is
replaced by the mutated row (primary keys are unique, so this is the one
fetched row). -/
def replaceAudit (audits : List Audit) (aid : Nat) (a' : Audit) : List Audit :=
  audits.map fun a => if a.id == aid then a' else a

def replaceProperty (props : List Property) (pid : Nat) (p' : Property) : List Property :=
  props.map fun p => if p.id == pid then p' else p

def replaceUser (users : List User) (uid : Nat) (u' : User) : List User :=
  users.map fun u => if u.id == uid then u' else u

def replaceItem (items : List AuditItem) (iid : Nat) (i' : AuditItem) : List AuditItem :=
  items.map fun i => if i.id == iid then i' else i

/-- `DatabaseQueries.update_user`: fetch by id, `setattr` every kwarg,
commit; returns the (possibly absent) user. -/
def update_user (db : DB) (user_id : Nat) (kwargs : List UserKwarg) :
    Option User × DB :=
  match db.users.find? (fun u => u.id == user_id) with
  | none => (none, db)
  | some u =>
      let u' := kwargs.foldl setUserAttr u
      (some u', { db with users := replaceUser db.users user_id u' })

/-- `DatabaseQueries.update_property_status`: derive status from the score
thresholds, store the score, advance `next_audit_date` by 90 days. -/
def update_property_status (db : DB) (now : Int) (property_id : Nat)
    (score : Int) : Option Property × DB :=
  match db.properties.find? (fun p => p.id == property_id) with
  | none => (none, db)
  | some p =>
      let p := if score ≥ 80 then { p with status := "green" }
        else if score ≥ 60 then { p with status := "amber" }
        else { p with status := "red" }
      let p := { p with last_audit_score := some score,
                        next_audit_date := some (now + 90) }
      (some p, { db with properties := replaceProperty db.properties property_id p })

/-- `audit.overall_score = overall_score` (unconditional). -/
def step_overall (overall_score : Int) (a : Audit) : Audit :=
  { a with overall_score := some overall_score }

/-- `if cleanliness_score is not None: audit.cleanliness_score = ...`. -/
def step_clean (cleanliness_score : Option Int) (a : Audit) : Audit :=
  match cleanliness_score with
  | some v => { a with cleanliness_score := some v }
  | none => a

/-- `if branding_score is not None: audit.branding_score = ...`. -/
def step_brand (branding_score : Option Int) (a : Audit) : Audit :=
  match branding_score with
  | some v => { a with branding_score := some v }
  | none => a

/-- `if operational_score is not None: audit.operational_score = ...`. -/
def step_oper (operational_score : Option Int) (a : Audit) : Audit :=
  match operational_score with
  | some v => { a with operational_score := some v }
  | none => a

/-- `if compliance_zone: audit.compliance_zone = compliance_zone`. -/
def step_zone (compliance_zone : Option String) (a : Audit) : Audit :=
  if truthyStr compliance_zone then { a with compliance_zone := compliance_zone }
  else a

/-- `if findings: audit.findings = findings`. -/
def step_findings (findings : Option JsonObj) (a : Audit) : Audit :=
  if truthyObj findings then { a with findings := findings } else a

/-- `if action_plan: audit.action_plan = action_plan`. -/
def step_action (action_plan : Option JsonObj) (a : Audit) : Audit :=
  if truthyObj action_plan then { a with action_plan := action_plan } else a

/-- `audit.status = "submitted"; audit.submitted_at = datetime.utcnow()`. -/
def step_submit (now : Int) (a : Audit) : Audit :=
  { a with status := "submitted", submitted_at := some now }

/-- The row mutations of `update_audit_scores`, applied in source order. -/
def apply_audit_scores (now overall_score : Int)
    (cleanliness_score branding_score operational_score : Option Int)
    (compliance_zone : Option String) (findings action_plan : Option JsonObj)
    (a : Audit) : Audit :=
  step_submit now
    (step_action action_plan
      (step_findings findings
        (step_zone compliance_zone
          (step_oper operational_score
            (step_brand branding_score
              (step_clean cleanliness_score
                (step_overall overall_score a)))))))

/-- `DatabaseQueries.update_audit_scores`: partial update of an audit's
scores and completion data; `overall_score` is unconditional, the three
sub-scores are written when not `None`, the zone/findings/action-plan when
truthy; status and `submitted_at` are always stamped. -/
def update_audit_scores (db : DB) (now : Int) (audit_id : Nat)
    (overall_score : Int)
    (cleanliness_score : Option Int := none) (branding_score : Option Int := none)
    (operational_score : Option Int := none) (compliance_zone : Option String := none)
    (findings : Option JsonObj := none) (action_plan : Option JsonObj := none) :
    Option Audit × DB :=
  match db.audits.find? (fun a => a.id == audit_id) with
  | none => (none, db)
  | some a =>
      let a := apply_audit_scores now overall_score cleanliness_score
        branding_score operational_score compliance_zone findings action_plan a
      (some a, { db with audits := replaceAudit db.audits audit_id a })

/-- `DatabaseQueries.assign_reviewer`. -/
def assign_reviewer (db : DB) (now : Int) (audit_id reviewer_id : Nat) :
    Option Audit × DB :=
  match db.audits.find? (fun a => a.id == audit_id) with
  | none => (none, db)
  | some a =>
      let a := { a with reviewer_id := some reviewer_id,
                        status := "reviewed", reviewed_at := some now }
      (some a, { db with audits := replaceAudit db.audits audit_id a })

/-- `DatabaseQueries.update_audit_item_with_ai`: analysis and suggested
score unconditionally, the score when not `None`, the comments when truthy. -/
def update_audit_item_with_ai (db : DB) (item_id : Nat) (ai_analysis : JsonObj)
    (ai_suggested_score : Int) (score : Option Int := none)
    (comments : Option String := none) : Option AuditItem × DB :=
  match db.audit_items.find? (fun i => i.id == item_id) with
  | none => (none, db)
  | some i =>
      let i := { i with ai_analysis := some ai_analysis,
                        ai_suggested_score := some ai_suggested_score }
      let i := match score with
        | some v => { i with score := some v }
        | none => i
      let i := if truthyStr comments then { i with comments := comments } else i
      (some i, { db with audit_items := replaceItem db.audit_items item_id i })

/-- `DatabaseQueries.update_audit_with_ai_report`. -/
def update_audit_with_ai_report (db : DB) (audit_id : Nat)
    (ai_report ai_insights : JsonObj) : Option Audit × DB :=
  match db.audits.find? (fun a => a.id == audit_id) with
  | none => (none, db)
  | some a =>
      let a := { a with ai_report := some ai_report, ai_insights := some ai_insights }
      (some a, { db with audits := replaceAudit db.audits audit_id a })

/-- Order `Property.next_audit_date.asc().nullsfirst()`. -/
def nextAuditAsc (p q : Property) : Prop :=
  match p.next_audit_date, q.next_audit_date with
  | none, _ => True
  | some _, none => False
  | some a, some b => a ≤ b

instance : DecidableRel nextAuditAsc := fun p q => by
  unfold nextAuditAsc
  cases p.next_audit_date <;> cases q.next_audit_date <;> infer_instance

instance : IsTotal Property nextAuditAsc where
  total p q := by
    unfold nextAuditAsc
    cases p.next_audit_date <;> cases q.next_audit_date <;> simp [le_total]

instance : IsTrans Property nextAuditAsc where
  trans p q r hpq hqr := by
    unfold nextAuditAsc at *
    cases hp : p.next_audit_date <;> cases hq : q.next_audit_date <;>
      cases hr : r.next_audit_date <;> simp_all <;> omega

/-- `DatabaseQueries.get_properties_needing_audit`: rows whose
`next_audit_date` is NULL or before today, ordered ascending nulls first. -/
def get_properties_needing_audit (db : DB) (today : Int) : List Property :=
  List.insertionSort nextAuditAsc
    (db.properties.filter fun p =>
      match p.next_audit_date with
      | none => true
      | some d => decide (d < today))

/-- Maximum audit id per property (the `func.max(Audit.id)` grouped
subquery). -/
def max_audit_id_for (db : DB) (pid : Nat) : Option Nat :=
  (db.audits.filter fun a => a.property_id == pid).foldl
    (fun acc a => match acc with
      | none => some a.id
      | some m => some (max m a.id)) none

/-- Latest audit of a property: the row joined through `max_audit_id`. -/
def latest_audit (db : DB) (pid : Nat) : Option Audit :=
  match max_audit_id_for db pid with
  | none => none
  | some mid => db.audits.find? (fun a => a.id == mid)

/-- SQL `column = 'literal'` on a nullable column: NULL never matches. -/
def sqlEqStr (x : Option String) (s : String) : Bool :=
  match x with
  | some v => v == s
  | none => false

/-- SQL `column > k` on a nullable integer column: NULL never matches. -/
def sqlGtInt (x : Option Int) (k : Int) : Bool :=
  match x with
  | some v => decide (k < v)
  | none => false

/-- The `case(...)` expression computing `risk_level` in
`get_risk_assessment`, branch for branch. -/
def risk_level_case (zone : Option String) (days : Option Int) : String :=
  if sqlEqStr zone "red" then "HIGH"
  else if sqlEqStr zone "amber" && sqlGtInt days 90 then "HIGH"
  else if sqlEqStr zone "amber" then "MEDIUM"
  else if sqlGtInt days 180 then "MEDIUM"
  else "LOW"

/-- One result row of `get_risk_assessment`. -/
structure RiskRow where
  name : String
  location : String
  overall_score : Option Int
  compliance_zone : Option String
  days_since_audit : Option Int
  risk_level : String
deriving DecidableEq, Repr

/-- The `case(...)` expression ranking zones in the ORDER BY of
`get_risk_assessment` (red 1, amber 2, else 3). -/
def zoneRank (zone : Option String) : Nat :=
  if sqlEqStr zone "red" then 1
  else if sqlEqStr zone "amber" then 2
  else 3

/-- Descending order on the nullable `days_since_audit` (DESC puts NULL
first). -/
def daysDesc (a b : Option Int) : Prop :=
  match a, b with
  | none, _ => True
  | some _, none => False
  | some x, some y => y ≤ x

/-- ORDER BY of `get_risk_assessment`: zone rank ascending, then days
since audit descending. -/
def riskOrder (x y : RiskRow) : Prop :=
  zoneRank x.compliance_zone < zoneRank y.compliance_zone ∨
    (zoneRank x.compliance_zone = zoneRank y.compliance_zone ∧
      daysDesc x.days_since_audit y.days_since_audit)

instance : DecidableRel daysDesc := fun a b => by
  unfold daysDesc
  cases a <;> cases b <;> infer_instance

instance : DecidableRel riskOrder := fun x y => by
  unfold riskOrder; infer_instance

instance : IsTotal RiskRow riskOrder where
  total x y := by
    unfold riskOrder daysDesc
    rcases Nat.lt_trichotomy (zoneRank x.compliance_zone) (zoneRank y.compliance_zone)
      with h | h | h
    · exact Or.inl (Or.inl h)
    · cases hx : x.days_since_audit <;> cases hy : y.days_since_audit <;>
        simp_all <;> omega
    · exact Or.inr (Or.inl h)

instance : IsTrans RiskRow riskOrder where
  trans x y z hxy hyz := by
    unfold riskOrder daysDesc at *
    rcases hxy with h1 | ⟨h1, d1⟩ <;> rcases hyz with h2 | ⟨h2, d2⟩
    · exact Or.inl (h1.trans h2)
    · exact Or.inl (h2 ▸ h1)
    · exact Or.inl (h1 ▸ h2)
    · refine Or.inr ⟨h1.trans h2, ?_⟩
      cases hx : x.days_since_audit <;> cases hy : y.days_since_audit <;>
        cases hz : z.days_since_audit <;> simp_all <;> omega

/-- `DatabaseQueries.get_risk_assessment`: every property outer-joined to
its latest audit, with `days_since_audit = current_date - date(created_at)`
and the `risk_level` case expression, ordered by zone rank then staleness. -/
def get_risk_assessment (db : DB) (today : Int) : List RiskRow :=
  List.insertionSort riskOrder
    (db.properties.map fun p =>
      let la := latest_audit db p.id
      let zone := la.bind (fun a => a.compliance_zone)
      let days := la.map (fun a => today - a.created_at)
      { name := p.name
        location := p.location
        overall_score := la.bind (fun a => a.overall_score)
        compliance_zone := zone
        days_since_audit := days
        risk_level := risk_level_case zone days })

/-- `DatabaseQueries.cleanup_old_data`: delete the audit items joined to an
audit older than the cutoff, then the audits older than the cutoff; return
the two row counts. -/
def cleanup_old_data (db : DB) (now : Int) (days : Int := 1095) :
    DB × Nat × Nat :=
  let cutoff := now - days
  let itemIsOld : AuditItem → Bool := fun it =>
    db.audits.any fun a => a.id == it.audit_id && decide (a.created_at < cutoff)
  let deleted_items := (db.audit_items.filter itemIsOld).length
  let db := { db with audit_items := db.audit_items.filter fun it => !(itemIsOld it) }
  let auditIsOld : Audit → Bool := fun a => decide (a.created_at < now - days)
  let deleted_audits := (db.audits.filter auditIsOld).length
  let db := { db with audits := db.audits.filter fun a => !(auditIsOld a) }
  (db, deleted_items, deleted_audits)

/-- ORDER BY `desc(Audit.created_at)`. -/
def createdDesc (a b : Audit) : Prop := b.created_at ≤ a.created_at

instance : DecidableRel createdDesc := fun a b => by
  unfold createdDesc; infer_instance

instance : IsTotal Audit createdDesc :=
  ⟨fun a b => (le_total b.created_at a.created_at).imp id id⟩

instance : IsTrans Audit createdDesc :=
  ⟨fun _ _ _ h1 h2 => le_trans h2 h1⟩

/-- One `if criterion: query = query.filter(...)` step of the builder. -/
def filterStep (q : List Audit) (b : Bool) (f : Audit → Bool) : List Audit :=
  if b then q.filter f else q

/-- SQL `column.in_(values)` on a non-null column. -/
def sqlInList {α : Type} [DecidableEq α] (v : α) (l : List α) : Bool :=
  decide (v ∈ l)

/-- SQL `column.in_(values)` on a nullable column: NULL never matches. -/
def sqlInListOpt {α : Type} [DecidableEq α] (v : Option α) (l : List α) : Bool :=
  match v with
  | some x => sqlInList x l
  | none => false

/-- SQL `column >= t` on a non-null column. -/
def sqlGe (v t : Int) : Bool := decide (t ≤ v)

/-- SQL `column <= t` on a non-null column. -/
def sqlLe (v t : Int) : Bool := decide (v ≤ t)

/-- SQL `column >= t` on a nullable column: NULL never matches. -/
def sqlGeOpt (v : Option Int) (t : Int) : Bool :=
  match v with
  | some s => sqlGe s t
  | none => false

/-- SQL `column <= t` on a nullable column: NULL never matches. -/
def sqlLeOpt (v : Option Int) (t : Int) : Bool :=
  match v with
  | some s => sqlLe s t
  | none => false

/-- `QueryBuilder.build_audit_filter_query`: sequentially applied optional
filters (list criteria and dates guarded by truthiness, score bounds by
`is not None`), finally ordered by `created_at` descending. -/
def build_audit_filter_query (db : DB)
    (property_ids : Option (List Nat) := none)
    (auditor_ids : Option (List Nat) := none)
    (status_list : Option (List String) := none)
    (date_from : Option Int := none)
    (date_to : Option Int := none)
    (score_min : Option Int := none)
    (score_max : Option Int := none)
    (compliance_zones : Option (List String) := none) : List Audit :=
  let q := db.audits
  let q := filterStep q (truthyList property_ids)
    (fun a => sqlInList a.property_id (property_ids.getD []))
  let q := filterStep q (truthyList auditor_ids)
    (fun a => sqlInListOpt a.auditor_id (auditor_ids.getD []))
  let q := filterStep q (truthyList status_list)
    (fun a => sqlInList a.status (status_list.getD []))
  let q := filterStep q date_from.isSome
    (fun a => sqlGe a.created_at (date_from.getD 0))
  let q := filterStep q date_to.isSome
    (fun a => sqlLe a.created_at (date_to.getD 0))
  let q := filterStep q score_min.isSome
    (fun a => sqlGeOpt a.overall_score (score_min.getD 0))
  let q := filterStep q score_max.isSome
    (fun a => sqlLeOpt a.overall_score (score_max.getD 0))
  let q := filterStep q (truthyList compliance_zones)
    (fun a => sqlInListOpt a.compliance_zone (compliance_zones.getD []))
  List.insertionSort createdDesc q

/-- A raised Python exception: either a FastAPI `HTTPException` or any
other exception carrying its message. -/
inductive PyExn where
  | http (status_code : Nat) (detail : String)
  | other (msg : String)
deriving DecidableEq, Repr

/-- `str(e)` of an exception (Starlette renders an `HTTPException` as
`"{status_code}: {detail}"`; a plain exception renders its message). -/
def pyStr : PyExn → String
  | .http s d => toString s ++ ": " ++ d
  | .other m => m

/-- Request body of `/analyze-photo`. -/
structure PhotoAnalysisRequest where
  image_base64 : String
  context : String
  audit_item_id : Option Nat
deriving DecidableEq, Repr

/-- Response body of `/analyze-photo`. -/
structure PhotoAnalysisResponse where
  compliance_status : String
  confidence_score : Int
  observations : List String
  suggestions : List String
  ai_score : Option Int
deriving DecidableEq, Repr

/-- Response body of `/generate-report`. -/
structure ReportGenerationResponse where
  summary : String
  key_findings : List String
  recommendations : List String
  compliance_overview : JsonObj
  ai_insights : JsonObj
deriving DecidableEq, Repr

/-- One entry of the `audit_items` list of the payload that
`generate_report` sends to the model. -/
structure AuditItemPayload where
  item_section : String
  item : String
  score : Option Int
  comments : Option String
deriving DecidableEq, Repr

/-- The payload `generate_report` flattens the audit into. -/
structure AuditData where
  property_name : String
  location : String
  audit_date : Int
  audit_type : String
  overall_score : Option Int
  compliance_zone : Option String
  audit_items : List AuditItemPayload
deriving DecidableEq, Repr

/-- The `audit_data` dict built by the `/generate-report` handler. -/
def mkAuditData (db : DB) (a : Audit) : AuditData :=
  let prop := db.properties.find? (fun p => p.id == a.property_id)
  { property_name := (prop.map (fun p => p.name)).getD "Unknown"
    location := (prop.map (fun p => p.location)).getD "Unknown"
    audit_date := a.created_at
    audit_type := "Standard Audit"
    overall_score := a.overall_score
    compliance_zone := a.compliance_zone
    audit_items :=
      (db.audit_items.filter fun i => i.audit_id == a.id).map fun i =>
        { item_section := i.item_section
          item := i.item_name
          score := i.score
          comments := i.comments } }

/-- `/analyze-photo` handler: awaits the Gemini call inside `try`; any
exception is re-raised as `HTTPException(500, "Failed to analyze photo:
" + str(e))`. The external service is the opaque parameter `gemini`. -/
def analyze_photo
    (gemini : PhotoAnalysisRequest → Except PyExn PhotoAnalysisResponse)
    (req : PhotoAnalysisRequest) : Except PyExn PhotoAnalysisResponse :=
  match gemini req with
  | .ok analysis => .ok analysis
  | .error e => .error (.http 500 ("Failed to analyze photo: " ++ pyStr e))

/-- The body of the `try:` block of the `/generate-report` handler: fetch
the audit, raise `HTTPException(404)` when absent, otherwise flatten it and
await the model. -/
def generate_report_try_body (db : DB)
    (gemini : AuditData → Except PyExn ReportGenerationResponse)
    (audit_id : Nat) : Except PyExn ReportGenerationResponse :=
  match db.audits.find? (fun a => a.id == audit_id) with
  | none => .error (.http 404 "Audit not found")
  | some a => gemini (mkAuditData db a)

/-- `/generate-report` handler: the whole body, the 404 raise included,
sits inside `try: ... except Exception as e:`, which re-raises every
exception as `HTTPException(500, "Failed to generate report: " + str(e))`. -/
def generate_report (db : DB)
    (gemini : AuditData → Except PyExn ReportGenerationResponse)
    (audit_id : Nat) : Except PyExn ReportGenerationResponse :=
  match generate_report_try_body db gemini audit_id with
  | .ok r => .ok r
  | .error e => .error (.http 500 ("Failed to generate report: " ++ pyStr e))

/-! ### Concrete sample data for witnesses and counterexamples -/

/-- A sample audit row. -/
def audit1 : Audit :=
  { id := 1, property_id := 1, auditor_id := some 2, reviewer_id := none
    status := "scheduled", overall_score := some 75
    cleanliness_score := some 70, branding_score := none
    operational_score := none, compliance_zone := some "amber"
    findings := some [("k", "v")], action_plan := none
    ai_report := none, ai_insights := none
    submitted_at := none, reviewed_at := none, created_at := 10 }

/-- A sample property row. -/
def property1 : Property :=
  { id := 1, name := "Taj Palace", location := "Mumbai", region := "West"
    image := none, status := "amber", last_audit_score := some 75
    next_audit_date := some 50, created_at := 0 }

/-- A sample audit item row. -/
def item1 : AuditItem :=
  { id := 1, audit_id := 1, item_section := "Housekeeping"
    category := "Cleanliness", item_name := "Lobby", item := "Lobby"
    description := "Lobby cleanliness", is_compliant := some true
    score := some 80, comments := some "ok", notes := none
    photo_url := none, ai_analysis := none, ai_suggested_score := none
    created_at := 1900 }

/-- A sample user row. -/
def user1 : User :=
  { id := 2, username := "john", password := "h", role := "auditor"
    name := "John", email := "j@x.com", created_at := 0 }

/-- A one-property, one-audit, one-item database. -/
def sampleDB : DB :=
  { users := [user1], properties := [property1]
    audits := [audit1], audit_items := [item1] }

/-- The empty database. -/
def emptyDB : DB :=
  { users := [], properties := [], audits := [], audit_items := [] }

/-- A stub for the external model, never consulted on the paths under
scrutiny. -/
def geminiStub : AuditData → Except PyExn ReportGenerationResponse :=
  fun _ => .error (.other "stub")

/-- A photo-analysis stub that always fails with a fixed cause. -/
def geminiPhotoFail : PhotoAnalysisRequest → Except PyExn PhotoAnalysisResponse :=
  fun _ => .error (.other "quota exceeded")

/-- A sample photo-analysis request. -/
def photoReq1 : PhotoAnalysisRequest :=
  { image_base64 := "QUJD", context := "lobby", audit_item_id := some 1 }

/-- Database for the cleanup counterexample: an old audit (created at 0)
carrying a fresh item (created at 1900). -/
def cleanupDB : DB :=
  { users := [], properties := [], audits := [audit1], audit_items := [item1] }

/-- The risk-assessment row produced for the sample database at day 100. -/
def riskRow1 : RiskRow :=
  { name := "Taj Palace", location := "Mumbai", overall_score := some 75
    compliance_zone := some "amber", days_since_audit := some 90
    risk_level := "MEDIUM" }

/-! ### Spec-side definitions, written from the claims' wording, to be
compared with the source-derived definitions above -/

/-- Spec wording: "more than `k` days since the last audit". -/
def daysMoreThan (days : Option Int) (k : Int) : Prop :=
  ∃ d, days = some d ∧ k < d

instance (days : Option Int) (k : Int) : Decidable (daysMoreThan days k) :=
  match days with
  | none => isFalse (by simp [daysMoreThan])
  | some d => decidable_of_iff (k < d) (by simp [daysMoreThan])

/-- Spec wording: the risk-level rule table, as ordered first-match-wins
rules — red zone HIGH; amber and more than 90 days HIGH; amber MEDIUM;
more than 180 days MEDIUM; otherwise LOW. -/
def risk_rules (zone : Option String) (days : Option Int) : String :=
  if zone = some "red" then "HIGH"
  else if zone = some "amber" ∧ daysMoreThan days 90 then "HIGH"
  else if zone = some "amber" then "MEDIUM"
  else if daysMoreThan days 180 then "MEDIUM"
  else "LOW"

/-- Spec wording (amended): a list-valued criterion on a non-null column —
membership acts as OR; an omitted or empty criterion filters nothing. -/
def listCrit {α : Type} (crit : Option (List α)) (v : α) : Prop :=
  match crit with
  | none => True
  | some [] => True
  | some l => v ∈ l

/-- Spec wording (amended): a list-valued criterion on a nullable column. -/
def optListCrit {α : Type} (crit : Option (List α)) (v : Option α) : Prop :=
  match crit with
  | none => True
  | some [] => True
  | some l => ∃ x, v = some x ∧ x ∈ l

/-- Spec wording: a supplied lower bound on a non-null column. -/
def lowerBoundCrit (crit : Option Int) (v : Int) : Prop :=
  match crit with
  | none => True
  | some t => t ≤ v

/-- Spec wording: a supplied upper bound on a non-null column. -/
def upperBoundCrit (crit : Option Int) (v : Int) : Prop :=
  match crit with
  | none => True
  | some t => v ≤ t

/-- Spec wording: a supplied lower bound on the nullable score column. -/
def scoreMinCrit (crit : Option Int) (v : Option Int) : Prop :=
  match crit with
  | none => True
  | some m => ∃ s, v = some s ∧ m ≤ s

/-- Spec wording: a supplied upper bound on the nullable score column. -/
def scoreMaxCrit (crit : Option Int) (v : Option Int) : Prop :=
  match crit with
  | none => True
  | some m => ∃ s, v = some s ∧ s ≤ m

/-- Spec wording (amended): the conjunction of all supplied filter
criteria for one audit. -/
def audit_matches (a : Audit)
    (property_ids auditor_ids : Option (List Nat))
    (status_list : Option (List String))
    (date_from date_to score_min score_max : Option Int)
    (compliance_zones : Option (List String)) : Prop :=
  listCrit property_ids a.property_id ∧
  optListCrit auditor_ids a.auditor_id ∧
  listCrit status_list a.status ∧
  lowerBoundCrit date_from a.created_at ∧
  upperBoundCrit date_to a.created_at ∧
  scoreMinCrit score_min a.overall_score ∧
  scoreMaxCrit score_max a.overall_score ∧
  optListCrit compliance_zones a.compliance_zone

/-- Spec wording (amended): an audit item whose parent audit is older than
the cutoff — the rows the item delete of `cleanup_old_data` targets. -/
def itemParentOld (db : DB) (cutoff : Int) (it : AuditItem) : Prop :=
  ∃ a, a ∈ db.audits ∧ a.id = it.audit_id ∧ a.created_at < cutoff

/-! ### Theorems -/

/-! Projection lemmas for the row mutations of `update_audit_scores`: what
each step writes, and that it leaves every other column alone. -/

theorem step_overall_ov (os : Int) (a : Audit) :
    (step_overall os a).overall_score = some os := rfl

theorem step_overall_cl (os : Int) (a : Audit) :
    (step_overall os a).cleanliness_score = a.cleanliness_score := rfl

theorem step_overall_br (os : Int) (a : Audit) :
    (step_overall os a).branding_score = a.branding_score := rfl

theorem step_overall_op (os : Int) (a : Audit) :
    (step_overall os a).operational_score = a.operational_score := rfl

theorem step_overall_zo (os : Int) (a : Audit) :
    (step_overall os a).compliance_zone = a.compliance_zone := rfl

theorem step_overall_fi (os : Int) (a : Audit) :
    (step_overall os a).findings = a.findings := rfl

theorem step_overall_ac (os : Int) (a : Audit) :
    (step_overall os a).action_plan = a.action_plan := rfl

theorem step_clean_none (a : Audit) : step_clean none a = a := rfl

theorem step_clean_some_cl (v : Int) (a : Audit) :
    (step_clean (some v) a).cleanliness_score = some v := rfl

theorem step_clean_ov (cs : Option Int) (a : Audit) :
    (step_clean cs a).overall_score = a.overall_score := by cases cs <;> rfl

theorem step_clean_br (cs : Option Int) (a : Audit) :
    (step_clean cs a).branding_score = a.branding_score := by cases cs <;> rfl

theorem step_clean_op (cs : Option Int) (a : Audit) :
    (step_clean cs a).operational_score = a.operational_score := by
  cases cs <;> rfl

theorem step_clean_zo (cs : Option Int) (a : Audit) :
    (step_clean cs a).compliance_zone = a.compliance_zone := by cases cs <;> rfl

theorem step_clean_fi (cs : Option Int) (a : Audit) :
    (step_clean cs a).findings = a.findings := by cases cs <;> rfl

theorem step_clean_ac (cs : Option Int) (a : Audit) :
    (step_clean cs a).action_plan = a.action_plan := by cases cs <;> rfl

theorem step_brand_none (a : Audit) : step_brand none a = a := rfl

theorem step_brand_some_br (v : Int) (a : Audit) :
    (step_brand (some v) a).branding_score = some v := rfl

theorem step_brand_ov (bs : Option Int) (a : Audit) :
    (step_brand bs a).overall_score = a.overall_score := by cases bs <;> rfl

theorem step_brand_cl (bs : Option Int) (a : Audit) :
    (step_brand bs a).cleanliness_score = a.cleanliness_score := by
  cases bs <;> rfl

theorem step_brand_op (bs : Option Int) (a : Audit) :
    (step_brand bs a).operational_score = a.operational_score := by
  cases bs <;> rfl

theorem step_brand_zo (bs : Option Int) (a : Audit) :
    (step_brand bs a).compliance_zone = a.compliance_zone := by cases bs <;> rfl

theorem step_brand_fi (bs : Option Int) (a : Audit) :
    (step_brand bs a).findings = a.findings := by cases bs <;> rfl

theorem step_brand_ac (bs : Option Int) (a : Audit) :
    (step_brand bs a).action_plan = a.action_plan := by cases bs <;> rfl

theorem step_oper_none (a : Audit) : step_oper none a = a := rfl

theorem step_oper_some_op (v : Int) (a : Audit) :
    (step_oper (some v) a).operational_score = some v := rfl

theorem step_oper_ov (os : Option Int) (a : Audit) :
    (step_oper os a).overall_score = a.overall_score := by cases os <;> rfl

theorem step_oper_cl (os : Option Int) (a : Audit) :
    (step_oper os a).cleanliness_score = a.cleanliness_score := by
  cases os <;> rfl

theorem step_oper_br (os : Option Int) (a : Audit) :
    (step_oper os a).branding_score = a.branding_score := by cases os <;> rfl

theorem step_oper_zo (os : Option Int) (a : Audit) :
    (step_oper os a).compliance_zone = a.compliance_zone := by cases os <;> rfl

theorem step_oper_fi (os : Option Int) (a : Audit) :
    (step_oper os a).findings = a.findings := by cases os <;> rfl

theorem step_oper_ac (os : Option Int) (a : Audit) :
    (step_oper os a).action_plan = a.action_plan := by cases os <;> rfl

theorem step_zone_none (a : Audit) : step_zone none a = a := rfl

theorem step_zone_empty (a : Audit) : step_zone (some "") a = a := rfl

theorem step_zone_ov (cz : Option String) (a : Audit) :
    (step_zone cz a).overall_score = a.overall_score := by
  unfold step_zone; split <;> rfl

theorem step_zone_cl (cz : Option String) (a : Audit) :
    (step_zone cz a).cleanliness_score = a.cleanliness_score := by
  unfold step_zone; split <;> rfl

theorem step_zone_br (cz : Option String) (a : Audit) :
    (step_zone cz a).branding_score = a.branding_score := by
  unfold step_zone; split <;> rfl

theorem step_zone_op (cz : Option String) (a : Audit) :
    (step_zone cz a).operational_score = a.operational_score := by
  unfold step_zone; split <;> rfl

theorem step_zone_fi (cz : Option String) (a : Audit) :
    (step_zone cz a).findings = a.findings := by
  unfold step_zone; split <;> rfl

theorem step_zone_ac (cz : Option String) (a : Audit) :
    (step_zone cz a).action_plan = a.action_plan := by
  unfold step_zone; split <;> rfl

theorem step_findings_none (a : Audit) : step_findings none a = a := rfl

theorem step_findings_empty (a : Audit) : step_findings (some []) a = a := rfl

theorem step_findings_ov (f : Option JsonObj) (a : Audit) :
    (step_findings f a).overall_score = a.overall_score := by
  unfold step_findings; split <;> rfl

theorem step_findings_cl (f : Option JsonObj) (a : Audit) :
    (step_findings f a).cleanliness_score = a.cleanliness_score := by
  unfold step_findings; split <;> rfl

theorem step_findings_br (f : Option JsonObj) (a : Audit) :
    (step_findings f a).branding_score = a.branding_score := by
  unfold step_findings; split <;> rfl

theorem step_findings_op (f : Option JsonObj) (a : Audit) :
    (step_findings f a).operational_score = a.operational_score := by
  unfold step_findings; split <;> rfl

theorem step_findings_zo (f : Option JsonObj) (a : Audit) :
    (step_findings f a).compliance_zone = a.compliance_zone := by
  unfold step_findings; split <;> rfl

theorem step_findings_ac (f : Option JsonObj) (a : Audit) :
    (step_findings f a).action_plan = a.action_plan := by
  unfold step_findings; split <;> rfl

theorem step_action_none (a : Audit) : step_action none a = a := rfl

theorem step_action_empty (a : Audit) : step_action (some []) a = a := rfl

theorem step_action_ov (f : Option JsonObj) (a : Audit) :
    (step_action f a).overall_score = a.overall_score := by
  unfold step_action; split <;> rfl

theorem step_action_cl (f : Option JsonObj) (a : Audit) :
    (step_action f a).cleanliness_score = a.cleanliness_score := by
  unfold step_action; split <;> rfl

theorem step_action_br (f : Option JsonObj) (a : Audit) :
    (step_action f a).branding_score = a.branding_score := by
  unfold step_action; split <;> rfl

theorem step_action_op (f : Option JsonObj) (a : Audit) :
    (step_action f a).operational_score = a.operational_score := by
  unfold step_action; split <;> rfl

theorem step_action_zo (f : Option JsonObj) (a : Audit) :
    (step_action f a).compliance_zone = a.compliance_zone := by
  unfold step_action; split <;> rfl

theorem step_action_fi (f : Option JsonObj) (a : Audit) :
    (step_action f a).findings = a.findings := by
  unfold step_action; split <;> rfl

theorem step_submit_st (now : Int) (a : Audit) :
    (step_submit now a).status = "submitted" := rfl

theorem step_submit_su (now : Int) (a : Audit) :
    (step_submit now a).submitted_at = some now := rfl

theorem step_submit_ov (now : Int) (a : Audit) :
    (step_submit now a).overall_score = a.overall_score := rfl

theorem step_submit_cl (now : Int) (a : Audit) :
    (step_submit now a).cleanliness_score = a.cleanliness_score := rfl

theorem step_submit_br (now : Int) (a : Audit) :
    (step_submit now a).branding_score = a.branding_score := rfl

theorem step_submit_op (now : Int) (a : Audit) :
    (step_submit now a).operational_score = a.operational_score := rfl

theorem step_submit_zo (now : Int) (a : Audit) :
    (step_submit now a).compliance_zone = a.compliance_zone := rfl

theorem step_submit_fi (now : Int) (a : Audit) :
    (step_submit now a).findings = a.findings := rfl

theorem step_submit_ac (now : Int) (a : Audit) :
    (step_submit now a).action_plan = a.action_plan := rfl

attribute [simp] step_overall_ov step_overall_cl step_overall_br
  step_overall_op step_overall_zo step_overall_fi step_overall_ac
  step_clean_none step_clean_some_cl step_clean_ov step_clean_br
  step_clean_op step_clean_zo step_clean_fi step_clean_ac
  step_brand_none step_brand_some_br step_brand_ov step_brand_cl
  step_brand_op step_brand_zo step_brand_fi step_brand_ac
  step_oper_none step_oper_some_op step_oper_ov step_oper_cl
  step_oper_br step_oper_zo step_oper_fi step_oper_ac
  step_zone_none step_zone_empty step_zone_ov step_zone_cl step_zone_br
  step_zone_op step_zone_fi step_zone_ac
  step_findings_none step_findings_empty step_findings_ov step_findings_cl
  step_findings_br step_findings_op step_findings_zo step_findings_ac
  step_action_none step_action_empty step_action_ov step_action_cl
  step_action_br step_action_op step_action_zo step_action_fi
  step_submit_st step_submit_su step_submit_ov step_submit_cl
  step_submit_br step_submit_op step_submit_zo step_submit_fi
  step_submit_ac

/-- C4: after `update_property_status` on an existing property, the stored
status is "green" iff the score is at least 80, "amber" iff it is in
[60, 80), "red" iff it is below 60; the score is stored and the next audit
date is the call time plus 90 days. -/
theorem update_property_status_thresholds (db : DB) (now : Int)
    (pid : Nat) (score : Int) (p : Property)
    (h : db.properties.find? (fun q => q.id == pid) = some p) :
    ∃ p', (update_property_status db now pid score).1 = some p' ∧
      p' ∈ (update_property_status db now pid score).2.properties ∧
      (p'.status = "green" ↔ 80 ≤ score) ∧
      (p'.status = "amber" ↔ 60 ≤ score ∧ score < 80) ∧
      (p'.status = "red" ↔ score < 60) ∧
      p'.last_audit_score = some score ∧
      p'.next_audit_date = some (now + 90) := by
  have hmem : p ∈ db.properties := List.mem_of_find?_eq_some h
  have hid : (p.id == pid) = true := by
    have := List.find?_some h
    simpa using this
  simp only [update_property_status, h]
  split_ifs with h1 h2 <;>
    refine ⟨_, rfl, ?_, ?_, ?_, ?_, rfl, rfl⟩ <;>
    first
      | (refine List.mem_map.mpr ⟨p, hmem, ?_⟩; simp [replaceProperty, hid])
      | (constructor <;> intro hx <;> simp_all <;> omega)

/-- C4 witness: instantiation at the sample database, property 1,
score 85. -/
theorem update_property_status_thresholds_witness :
    sampleDB.properties.find? (fun q => q.id == 1) = some property1 ∧
    ∃ p', (update_property_status sampleDB 100 1 85).1 = some p' ∧
      p' ∈ (update_property_status sampleDB 100 1 85).2.properties ∧
      (p'.status = "green" ↔ 80 ≤ (85 : Int)) ∧
      (p'.status = "amber" ↔ 60 ≤ (85 : Int) ∧ (85 : Int) < 80) ∧
      (p'.status = "red" ↔ (85 : Int) < 60) ∧
      p'.last_audit_score = some 85 ∧
      p'.next_audit_date = some (100 + 90) :=
  ⟨by decide, update_property_status_thresholds sampleDB 100 1 85 property1
    (by decide)⟩

/-- C9: every id-keyed lookup-then-mutate operation called with an id that
resolves to no row returns `none` and leaves the database unchanged. -/
theorem not_found_id_updates_return_none
    (db : DB) (now : Int) (uid aid pid iid : Nat)
    (kwargs : List UserKwarg) (score os : Int) (cs bs osc : Option Int)
    (cz : Option String) (fnd ap : Option JsonObj)
    (rid : Nat) (sc : Option Int) (cm : Option String)
    (ana rep ins : JsonObj) (sugg : Int)
    (hu : db.users.find? (fun u => u.id == uid) = none)
    (ha : db.audits.find? (fun a => a.id == aid) = none)
    (hp : db.properties.find? (fun p => p.id == pid) = none)
    (hi : db.audit_items.find? (fun i => i.id == iid) = none) :
    update_user db uid kwargs = (none, db) ∧
    update_property_status db now pid score = (none, db) ∧
    update_audit_scores db now aid os cs bs osc cz fnd ap = (none, db) ∧
    assign_reviewer db now aid rid = (none, db) ∧
    update_audit_item_with_ai db iid ana sugg sc cm = (none, db) ∧
    update_audit_with_ai_report db aid rep ins = (none, db) := by
  refine ⟨?_, ?_, ?_, ?_, ?_, ?_⟩ <;>
    simp [update_user, update_property_status, update_audit_scores,
      assign_reviewer, update_audit_item_with_ai, update_audit_with_ai_report,
      hu, ha, hp, hi]

/-- C9 witness: instantiation at the empty database, where no id
resolves. -/
theorem not_found_id_updates_return_none_witness :
    update_user emptyDB 7 [] = (none, emptyDB) ∧
    update_audit_scores emptyDB 0 1 50 none none none none none none
      = (none, emptyDB) := by
  have h := not_found_id_updates_return_none emptyDB 0 7 1 2 3 [] 60 50
    none none none none none none 4 none none [] [] [] 88
    rfl rfl rfl rfl
  exact ⟨h.1, h.2.2.1⟩

/-- C1 (code bug): `/generate-report` with an audit id that resolves to no
audit responds with a 500 generic service error (the broad `except`
swallows the `HTTPException(404)` raised inside the `try` and re-raises it
as 500), never with the claimed 404 not-found condition. -/
theorem generate_report_unknown_audit_returns_500 :
    ∀ gemini, generate_report emptyDB gemini 42 =
      .error (.http 500 "Failed to generate report: 404: Audit not found") ∧
    ∀ d, generate_report emptyDB gemini 42 ≠ .error (.http 404 d) := by
  intro gemini
  have h : generate_report emptyDB gemini 42 =
      .error (.http 500 "Failed to generate report: 404: Audit not found") := rfl
  refine ⟨h, fun d hc => ?_⟩
  rw [h] at hc
  simp at hc

/-- C8: when the external model call fails, `/analyze-photo` surfaces a
500 generic service error whose message carries the underlying cause, and
never a successful (partially populated) analysis response. -/
theorem analyze_photo_error_propagation
    (gemini : PhotoAnalysisRequest → Except PyExn PhotoAnalysisResponse)
    (req : PhotoAnalysisRequest) (e : PyExn)
    (h : gemini req = .error e) :
    analyze_photo gemini req =
      .error (.http 500 ("Failed to analyze photo: " ++ pyStr e)) ∧
    ∀ resp, analyze_photo gemini req ≠ .ok resp := by
  constructor
  · simp [analyze_photo, h]
  · intro resp hc
    simp [analyze_photo, h] at hc

/-- C8 witness: instantiation at a concrete failing model call. -/
theorem analyze_photo_error_propagation_witness :
    geminiPhotoFail photoReq1 = .error (.other "quota exceeded") ∧
    analyze_photo geminiPhotoFail photoReq1 =
      .error (.http 500 ("Failed to analyze photo: " ++
        pyStr (.other "quota exceeded"))) :=
  ⟨rfl, (analyze_photo_error_propagation geminiPhotoFail photoReq1
    (.other "quota exceeded") rfl).1⟩

/-- C3: after `update_audit_scores` on an existing audit, the stored audit
has status "submitted" and `submitted_at` equal to the call time whatever
the optional arguments were, and every field whose optional argument was
not supplied keeps its prior value. -/
theorem update_audit_scores_submits_and_frames
    (db : DB) (now : Int) (aid : Nat) (os : Int)
    (cs bs osc : Option Int) (cz : Option String) (fnd ap : Option JsonObj)
    (a : Audit)
    (h : db.audits.find? (fun x => x.id == aid) = some a) :
    ∃ a', (update_audit_scores db now aid os cs bs osc cz fnd ap).1 = some a' ∧
      a' ∈ (update_audit_scores db now aid os cs bs osc cz fnd ap).2.audits ∧
      a'.status = "submitted" ∧
      a'.submitted_at = some now ∧
      (cs = none → a'.cleanliness_score = a.cleanliness_score) ∧
      (bs = none → a'.branding_score = a.branding_score) ∧
      (osc = none → a'.operational_score = a.operational_score) ∧
      (cz = none → a'.compliance_zone = a.compliance_zone) ∧
      (fnd = none → a'.findings = a.findings) ∧
      (ap = none → a'.action_plan = a.action_plan) := by
  have hmem : a ∈ db.audits := List.mem_of_find?_eq_some h
  have hid : (a.id == aid) = true := by simpa using List.find?_some h
  refine ⟨apply_audit_scores now os cs bs osc cz fnd ap a, ?_, ?_,
    ?_, ?_, ?_, ?_, ?_, ?_, ?_, ?_⟩
  · simp [update_audit_scores, h]
  · simp only [update_audit_scores, h, replaceAudit]
    exact List.mem_map.mpr ⟨a, hmem, by simp [hid]⟩
  · simp [apply_audit_scores]
  · simp [apply_audit_scores]
  · intro hx; subst hx; simp [apply_audit_scores]
  · intro hx; subst hx; simp [apply_audit_scores]
  · intro hx; subst hx; simp [apply_audit_scores]
  · intro hx; subst hx; simp [apply_audit_scores]
  · intro hx; subst hx; simp [apply_audit_scores]
  · intro hx; subst hx; simp [apply_audit_scores]

/-- C3 witness: instantiation at the sample database with every optional
argument omitted. -/
theorem update_audit_scores_submits_and_frames_witness :
    sampleDB.audits.find? (fun x => x.id == 1) = some audit1 ∧
    ∃ a', (update_audit_scores sampleDB 99 1 88
        none none none none none none).1 = some a' ∧
      a' ∈ (update_audit_scores sampleDB 99 1 88
        none none none none none none).2.audits ∧
      a'.status = "submitted" ∧
      a'.submitted_at = some 99 ∧
      ((none : Option Int) = none → a'.cleanliness_score = audit1.cleanliness_score) ∧
      ((none : Option Int) = none → a'.branding_score = audit1.branding_score) ∧
      ((none : Option Int) = none → a'.operational_score = audit1.operational_score) ∧
      ((none : Option String) = none → a'.compliance_zone = audit1.compliance_zone) ∧
      ((none : Option JsonObj) = none → a'.findings = audit1.findings) ∧
      ((none : Option JsonObj) = none → a'.action_plan = audit1.action_plan) :=
  ⟨rfl, update_audit_scores_submits_and_frames sampleDB 99 1 88
    none none none none none none audit1 rfl⟩

/-- C10: `update_audit_scores` tests `compliance_zone`, `findings` and
`action_plan` for truthiness, so supplying the empty string or empty dict
leaves those stored fields unchanged, while `overall_score`, status and
`submitted_at` are still written, and each of the three sub-scores is
written whenever it is non-None. -/
theorem update_audit_scores_truthiness
    (db : DB) (now : Int) (aid : Nat) (os : Int) (v1 v2 v3 : Option Int)
    (a : Audit)
    (h : db.audits.find? (fun x => x.id == aid) = some a) :
    ∃ a', (update_audit_scores db now aid os v1 v2 v3
        (some "") (some []) (some [])).1 = some a' ∧
      a'.compliance_zone = a.compliance_zone ∧
      a'.findings = a.findings ∧
      a'.action_plan = a.action_plan ∧
      a'.overall_score = some os ∧
      a'.status = "submitted" ∧
      a'.submitted_at = some now ∧
      (∀ v, v1 = some v → a'.cleanliness_score = some v) ∧
      (∀ v, v2 = some v → a'.branding_score = some v) ∧
      (∀ v, v3 = some v → a'.operational_score = some v) := by
  refine ⟨apply_audit_scores now os v1 v2 v3 (some "") (some []) (some []) a,
    ?_, ?_, ?_, ?_, ?_, ?_, ?_, ?_, ?_, ?_⟩
  · simp [update_audit_scores, h]
  · simp [apply_audit_scores]
  · simp [apply_audit_scores]
  · simp [apply_audit_scores]
  · simp [apply_audit_scores]
  · simp [apply_audit_scores]
  · simp [apply_audit_scores]
  · intro v hv; subst hv; simp [apply_audit_scores]
  · intro v hv; subst hv; simp [apply_audit_scores]
  · intro v hv; subst hv; simp [apply_audit_scores]

/-- C10 witness: instantiation at the sample database with empty-string
zone, empty findings and action plan, and a supplied cleanliness score. -/
theorem update_audit_scores_truthiness_witness :
    sampleDB.audits.find? (fun x => x.id == 1) = some audit1 ∧
    ∃ a', (update_audit_scores sampleDB 99 1 88 (some 91) none none
        (some "") (some []) (some [])).1 = some a' ∧
      a'.compliance_zone = audit1.compliance_zone ∧
      a'.findings = audit1.findings ∧
      a'.action_plan = audit1.action_plan ∧
      a'.overall_score = some 88 ∧
      a'.status = "submitted" ∧
      a'.submitted_at = some 99 ∧
      (∀ v, (some 91 : Option Int) = some v → a'.cleanliness_score = some v) ∧
      (∀ v, (none : Option Int) = some v → a'.branding_score = some v) ∧
      (∀ v, (none : Option Int) = some v → a'.operational_score = some v) :=
  ⟨rfl, update_audit_scores_truthiness sampleDB 99 1 88 (some 91) none none
    audit1 rfl⟩

/-- C7: `get_properties_needing_audit` returns exactly the properties
whose `next_audit_date` is null or strictly before today, sorted by
`next_audit_date` ascending with nulls first. -/
theorem get_properties_needing_audit_spec (db : DB) (today : Int) :
    (∀ p, p ∈ get_properties_needing_audit db today ↔
      p ∈ db.properties ∧
        (p.next_audit_date = none ∨
          ∃ d, p.next_audit_date = some d ∧ d < today)) ∧
    List.Sorted nextAuditAsc (get_properties_needing_audit db today) := by
  constructor
  · intro p
    simp only [get_properties_needing_audit, List.mem_insertionSort,
      List.mem_filter]
    cases hd : p.next_audit_date <;> simp [hd]
  · exact List.sorted_insertionSort nextAuditAsc _

/-- The SQL `case(...)` of `get_risk_assessment` agrees everywhere with
the spec's ordered rule table. -/
theorem risk_case_matches_rules (zone : Option String) (days : Option Int) :
    risk_level_case zone days = risk_rules zone days := by
  cases zone with
  | none =>
    cases days <;>
      simp [risk_level_case, risk_rules, sqlEqStr, sqlGtInt, daysMoreThan]
  | some s =>
    by_cases hred : s = "red"
    · subst hred
      cases days <;>
        simp [risk_level_case, risk_rules, sqlEqStr, sqlGtInt, daysMoreThan]
    · by_cases hamb : s = "amber"
      · subst hamb
        cases days <;>
          simp [risk_level_case, risk_rules, sqlEqStr, sqlGtInt, daysMoreThan]
      · cases days <;>
          simp [risk_level_case, risk_rules, sqlEqStr, sqlGtInt, daysMoreThan,
            hred, hamb]

/-- C2: every row produced by `get_risk_assessment` carries the risk label
given by the ordered first-match rule table over its compliance zone and
days since last audit: red HIGH; amber and more than 90 days HIGH; amber
MEDIUM; more than 180 days MEDIUM; otherwise LOW. -/
theorem get_risk_assessment_rule_table (db : DB) (today : Int)
    (row : RiskRow) (h : row ∈ get_risk_assessment db today) :
    row.risk_level = risk_rules row.compliance_zone row.days_since_audit := by
  simp only [get_risk_assessment, List.mem_insertionSort, List.mem_map] at h
  obtain ⟨p, hp, hrow⟩ := h
  subst hrow
  simpa using risk_case_matches_rules _ _

/-- C2 witness: the sample database yields a row (amber zone, 90 days),
and the theorem applies to it. -/
theorem get_risk_assessment_rule_table_witness :
    ∃ row, row ∈ get_risk_assessment sampleDB 100 ∧
      row.risk_level = risk_rules row.compliance_zone row.days_since_audit := by
  have hmem : riskRow1 ∈ get_risk_assessment sampleDB 100 := by decide
  exact ⟨_, hmem, get_risk_assessment_rule_table sampleDB 100 _ hmem⟩

/-- Membership through one conditional filter step. -/
theorem mem_filterStep (q : List Audit) (b : Bool) (f : Audit → Bool)
    (a : Audit) :
    a ∈ filterStep q b f ↔ a ∈ q ∧ (b = true → f a = true) := by
  unfold filterStep
  cases b <;> simp [List.mem_filter]

/-- A truthiness-guarded `in_` filter on a non-null column is the amended
list criterion. -/
theorem listCrit_of_guard {α : Type} [DecidableEq α]
    (crit : Option (List α)) (v : α) :
    (truthyList crit = true → sqlInList v (crit.getD []) = true) ↔
      listCrit crit v := by
  cases crit with
  | none => simp [truthyList, listCrit]
  | some l => cases l <;> simp [truthyList, listCrit, sqlInList]

/-- A truthiness-guarded `in_` filter on a nullable column is the amended
list criterion. -/
theorem optListCrit_of_guard {α : Type} [DecidableEq α]
    (crit : Option (List α)) (v : Option α) :
    (truthyList crit = true → sqlInListOpt v (crit.getD []) = true) ↔
      optListCrit crit v := by
  cases crit with
  | none => cases v <;> simp [truthyList, optListCrit]
  | some l =>
    cases l <;> cases v <;>
      simp [truthyList, optListCrit, sqlInListOpt, sqlInList]

/-- A presence-guarded lower bound on `created_at` is the date-from
criterion. -/
theorem lowerBoundCrit_of_guard (crit : Option Int) (v : Int) :
    (crit.isSome = true → sqlGe v (crit.getD 0) = true) ↔
      lowerBoundCrit crit v := by
  cases crit <;> simp [lowerBoundCrit, sqlGe]

/-- A presence-guarded upper bound on `created_at` is the date-to
criterion. -/
theorem upperBoundCrit_of_guard (crit : Option Int) (v : Int) :
    (crit.isSome = true → sqlLe v (crit.getD 0) = true) ↔
      upperBoundCrit crit v := by
  cases crit <;> simp [upperBoundCrit, sqlLe]

/-- A presence-guarded lower bound on the nullable score is the score-min
criterion. -/
theorem scoreMinCrit_of_guard (crit : Option Int) (v : Option Int) :
    (crit.isSome = true → sqlGeOpt v (crit.getD 0) = true) ↔
      scoreMinCrit crit v := by
  cases crit <;> cases v <;> simp [scoreMinCrit, sqlGeOpt, sqlGe]

/-- A presence-guarded upper bound on the nullable score is the score-max
criterion. -/
theorem scoreMaxCrit_of_guard (crit : Option Int) (v : Option Int) :
    (crit.isSome = true → sqlLeOpt v (crit.getD 0) = true) ↔
      scoreMaxCrit crit v := by
  cases crit <;> cases v <;> simp [scoreMaxCrit, sqlLeOpt, sqlLe]

/-- C5 (amended): `build_audit_filter_query` returns exactly the audits
satisfying the conjunction of all supplied criteria — membership within a
list-valued criterion acting as OR, omitted criteria filtering nothing,
and a supplied-but-empty list-valued criterion likewise filtering
nothing — ordered by `created_at` descending. -/
theorem build_audit_filter_query_conjunction (db : DB)
    (property_ids auditor_ids : Option (List Nat))
    (status_list : Option (List String))
    (date_from date_to score_min score_max : Option Int)
    (compliance_zones : Option (List String)) :
    (∀ a, a ∈ build_audit_filter_query db property_ids auditor_ids
        status_list date_from date_to score_min score_max compliance_zones ↔
      a ∈ db.audits ∧ audit_matches a property_ids auditor_ids status_list
        date_from date_to score_min score_max compliance_zones) ∧
    List.Sorted createdDesc
      (build_audit_filter_query db property_ids auditor_ids status_list
        date_from date_to score_min score_max compliance_zones) := by
  constructor
  · intro a
    simp only [build_audit_filter_query, List.mem_insertionSort,
      mem_filterStep, audit_matches]
    rw [listCrit_of_guard, optListCrit_of_guard, listCrit_of_guard,
      lowerBoundCrit_of_guard, upperBoundCrit_of_guard,
      scoreMinCrit_of_guard, scoreMaxCrit_of_guard, optListCrit_of_guard]
    tauto
  · exact List.sorted_insertionSort createdDesc _

/-- C5 counterexample: with the supplied criterion `property_ids = []` the
builder filters nothing — the sample audit is returned although its
property id is not a member of the supplied (empty) list, contradicting
the conjunction reading of "supplied criteria". -/
theorem build_audit_filter_query_empty_list_counterexample :
    build_audit_filter_query sampleDB (some []) none none none none none
        none none = [audit1] ∧
      ¬ audit1.property_id ∈ ([] : List Nat) := by
  exact ⟨rfl, by simp⟩

/-- A filter and its complement partition a list's length. -/
theorem filter_partition_length {α : Type} (l : List α) (p : α → Bool) :
    (l.filter p).length + (l.filter fun x => !(p x)).length = l.length := by
  induction l with
  | nil => rfl
  | cons x xs ih => by_cases hx : p x <;> simp [hx] <;> omega

/-- C6 (amended): `cleanup_old_data` deletes exactly the audits whose
`created_at` is strictly older than the cutoff and exactly the audit items
whose parent audit (joined before any audit is deleted) is strictly older
than the cutoff, and the returned counts equal the number of rows each
delete removed. -/
theorem cleanup_old_data_join_semantics (db : DB) (now days : Int) :
    (∀ it, it ∈ (cleanup_old_data db now days).1.audit_items ↔
      it ∈ db.audit_items ∧ ¬ itemParentOld db (now - days) it) ∧
    (∀ a, a ∈ (cleanup_old_data db now days).1.audits ↔
      a ∈ db.audits ∧ ¬ a.created_at < now - days) ∧
    (cleanup_old_data db now days).2.1 =
      db.audit_items.length -
        (cleanup_old_data db now days).1.audit_items.length ∧
    (cleanup_old_data db now days).2.2 =
      db.audits.length - (cleanup_old_data db now days).1.audits.length := by
  refine ⟨?_, ?_, ?_, ?_⟩
  · intro it
    simp [cleanup_old_data, itemParentOld, List.mem_filter, List.any_eq_true]
  · intro a
    simp [cleanup_old_data, List.mem_filter]
  · have h := filter_partition_length db.audit_items
      (fun it => db.audits.any fun a =>
        a.id == it.audit_id && decide (a.created_at < now - days))
    simp only [cleanup_old_data]
    omega
  · have h := filter_partition_length db.audits
      (fun a => decide (a.created_at < now - days))
    simp only [cleanup_old_data]
    omega

/-- C6 counterexample: a fresh item (created at 1900, cutoff 1500) is
nevertheless deleted because its parent audit is old — the delete keys on
the parent audit's `created_at`, not the item's own. -/
theorem cleanup_old_data_deletes_fresh_item :
    (cleanup_old_data cleanupDB 2000 500).1.audit_items = [] ∧
    item1 ∈ cleanupDB.audit_items ∧
    ¬ item1.created_at < 2000 - 500 := by
  exact ⟨rfl, by simp [cleanupDB], by decide⟩

end HotelAudit
